import Mathlib

/-!
Verification development for the `autogen` group-chat orchestration module
(`autogen/agentchat/groupchat2.py`) and the serialization registry
(`autogen/persistence/store.py`).

The Python code is shallowly embedded: dataclasses become structures, Python
exceptions become an explicit `PyErr` error type threaded through `Except`,
external collaborators (the reasoning backend, the human operator, agents'
reply generation) become explicit oracle inputs, and the `while`/`for` loops
become fuel-bounded structural recursion (the fuel is the loop bound of the
source).  Python object identity on roster members is modelled by structural
equality, which coincides with identity whenever the roster entries are
pairwise structurally distinct (in particular when names are unique, the
documented roster invariant).
-/

/-- Python exceptions that the embedded code can raise. -/
inductive PyErr where
  | valueError
  | keyError
  | typeError
  | indexError
  | attributeError
  | zeroDivisionError
deriving DecidableEq

/-- Modelled from the spec: the `Agent` class (`autogen/agentchat/agent.py`,
not under `src/`).  Spec §3: a participant has a unique `name`, a free-text
`description`, and a `function_table` (here the list of function names it can
execute, the keys of the Python `function_map` dict). -/
structure Agent where
  name : String
  description : String
  functionMap : List String
deriving DecidableEq

instance : Inhabited Agent := ⟨⟨"", "", []⟩⟩

/-- Modelled from the spec: the function-dispatch capability (spec §6):
"given a function name, answers whether a participant can execute it",
i.e. membership of the name in the participant's function table. -/
def Agent.can_execute_function (a : Agent) (f : String) : Bool :=
  a.functionMap.contains f

/-- A single textual or non-textual segment of a structured message payload. -/
inductive ContentPart where
  | text : String → ContentPart
  | nonText : ContentPart
deriving DecidableEq

/-- A message `content` value: either already a flat string or a structured
multi-part payload. -/
inductive Content where
  | str : String → Content
  | parts : List ContentPart → Content
deriving DecidableEq

/-- Modelled from the spec: `content_str` (`autogen/code_utils.py`, not under
`src/`), as described in spec §4.1: "normalizes `content` to a flat string
(flattening any structured/multi-part representation by concatenating textual
segments and describing non-textual segments with a placeholder)". -/
def content_str : Content → String
  | .str s => s
  | .parts l => String.join (l.map fun p =>
      match p with
      | .text s => s
      | .nonText => "<image>")

/-- A message dict as used by `groupchat2.py`: the fields the module reads or
writes.  `name` is `none` when the dict has no `"name"` key; `function_call`
is the requested function's name when the dict has a `"function_call"` key. -/
structure Message where
  role : String
  name : Option String
  content : Content
  function_call : Option String
deriving DecidableEq

instance : Inhabited Message := ⟨⟨"", none, .str "", none⟩⟩

/-- A decoded JSON value, the result of `json.loads` on the auto-selection
backend's response text. -/
inductive Json where
  | null
  | bool : Bool → Json
  | num : Int → Json
  | str : String → Json
  | arr : List Json → Json
  | obj : List (String × Json) → Json

/-- Python subscription `value["key"]` on a decoded JSON value: a dict lookup
(first matching key) that raises `KeyError` when the key is absent, and
`TypeError` when the value is not a dict (string/int/list/bool/None cannot be
indexed by a string key). -/
def pyIndexStr : Json → String → Except PyErr Json
  | .obj kvs, k =>
    match kvs.find? (fun kv => kv.1 == k) with
    | some kv => .ok kv.2
    | none => .error .keyError
  | _, _ => .error .typeError

/-- Python `list.index(x)` restricted to string lists: the first index whose
element equals `x`, or `none` (the caller turns this into `ValueError`). -/
def listIndex? : List String → String → Option Nat
  | [], _ => none
  | x :: xs, s => if x == s then some 0 else (listIndex? xs s).map (· + 1)

instance {ε α : Type} [DecidableEq ε] [DecidableEq α] : DecidableEq (Except ε α) := fun x y =>
  match x, y with
  | .ok a, .ok b =>
    if h : a = b then .isTrue (by rw [h]) else .isFalse (fun he => h (Except.ok.inj he))
  | .error e, .error f =>
    if h : e = f then .isTrue (by rw [h]) else .isFalse (fun he => h (Except.error.inj he))
  | .ok _, .error _ => .isFalse (fun he => nomatch he)
  | .error _, .ok _ => .isFalse (fun he => nomatch he)

/-- Python `str.lower()`: lower-case every character (the definition of
`String.toLower`, restated structurally so that it evaluates by kernel
reduction). -/
def pyLower (s : String) : String :=
  ⟨s.data.map Char.toLower⟩

/-- The `GroupChat2` dataclass (lines 16-43 of `groupchat2.py`).
`allow_repeat_speaker : Optional[Union[bool, List[Agent]]]` becomes
`Option (Bool ⊕ List Agent)` (`none` models Python `None`). -/
structure GroupChat2 where
  agents : List Agent
  messages : List Message
  max_round : Nat := 10
  admin_name : String := "Admin"
  func_call_filter : Bool := true
  speaker_selection_method : String := "auto"
  allow_repeat_speaker : Option (Bool ⊕ List Agent) := some (Sum.inl true)
deriving DecidableEq

/-- The `_VALID_SPEAKER_SELECTION_METHODS` list (line 45). -/
def validSpeakerSelectionMethods : List String :=
  ["auto", "manual", "random", "round_robin"]

/-- Embeds `GroupChat2.agent_names` (lines 47-50). -/
def GroupChat2.agent_names (gc : GroupChat2) : List String :=
  gc.agents.map (·.name)

/-- Embeds `GroupChat2.reset` (lines 52-54): `self.messages.clear()`. -/
def GroupChat2.reset (gc : GroupChat2) : GroupChat2 :=
  { gc with messages := [] }

/-- Embeds `GroupChat2.append` (lines 56-62).  The Python code mutates the caller's
dict in place (`message["content"] = content_str(message["content"])`) and
then appends that same object; the embedding returns both the updated chat
and the updated message value (the caller's dict after the call). -/
def GroupChat2.append (gc : GroupChat2) (message : Message) : GroupChat2 × Message :=
  let message := { message with content := Content.str (content_str message.content) }
  ({ gc with messages := gc.messages ++ [message] }, message)

/-- Embeds `GroupChat2.agent_by_name` (lines 64-66):
`self.agents[self.agent_names.index(name)]`; `list.index` raises `ValueError`
when the name is absent. -/
def GroupChat2.agent_by_name (gc : GroupChat2) (name : String) : Except PyErr Agent :=
  match listIndex? gc.agent_names name with
  | some i => .ok (gc.agents.getD i default)
  | none => .error .valueError

/-- The `offset` local of the second branch of `next_agent` (lines 79-83):
`self.agent_names.index(agent.name) + 1`, or 0 when the name is absent. -/
def nextAgentOffset (gc : GroupChat2) (agent : Agent) : Nat :=
  match listIndex? gc.agent_names agent.name with
  | some i => i + 1
  | none => 0

/-- Embeds `GroupChat2.next_agent` (lines 68-87).  The first branch (`agents ==
self.agents`) indexes with a modulus that raises `ZeroDivisionError` on an
empty list; the second branch scans the roster from the offset and returns
Python `None` (here `none`) when no roster member lies in `agents`. -/
def GroupChat2.next_agent (gc : GroupChat2) (agent : Agent) (agents : List Agent) :
    Except PyErr (Option Agent) :=
  if agents = gc.agents then
    if agents.length = 0 then .error .zeroDivisionError
    else .ok (agents[((listIndex? gc.agent_names agent.name).getD 0 + 1) % agents.length]?)
  else
    .ok ((List.range gc.agents.length).findSome? fun i =>
      match gc.agents[(nextAgentOffset gc agent + i) % gc.agents.length]? with
      | some a => if agents.contains a then some a else none
      | none => none)

/-- Python `int(s)` on operator input: optional surrounding whitespace, an
optional sign, then at least one digit; anything else raises `ValueError`
(modelled as `none`). -/
def digitsToNat? (cs : List Char) : Option Nat :=
  if cs.isEmpty then none
  else cs.foldl (fun acc c =>
    match acc with
    | none => none
    | some n => if c.isDigit then some (n * 10 + (c.toNat - '0'.toNat)) else none)
    (some 0)

def pyInt? (s : String) : Option Int :=
  match (s.data.dropWhile Char.isWhitespace).reverse.dropWhile Char.isWhitespace |>.reverse with
  | '-' :: rest => (digitsToNat? rest).map (fun n => -(n : Int))
  | '+' :: rest => (digitsToNat? rest).map (fun n => (n : Int))
  | cs => (digitsToNat? cs).map (fun n => (n : Int))

/-- The `while try_count <= 3` loop of `GroupChat2.manual_select_speaker`
(lines 150-167).  `inputs` is the operator's input stream (the `k`-th call to
`input()` returns `inputs k`); the second component of the result counts how
many times `input()` was called.  `fuel` bounds the loop (the source loop
guard allows at most 4 iterations); `try_count` and `reads` mirror the Python
locals. -/
def manualGo (agents : List Agent) (inputs : Nat → String) :
    Nat → Nat → Nat → Option Agent × Nat
  | 0, _, reads => (none, reads)
  | Nat.succ fuel, try_count, reads =>
    let try_count := try_count + 1
    if try_count ≥ 3 then (none, reads)
    else
      let s := inputs reads
      let reads := reads + 1
      if s = "" ∨ s = "q" then (none, reads)
      else
        match pyInt? s with
        | none => manualGo agents inputs fuel try_count reads
        | some i =>
          if 0 < i ∧ i ≤ (agents.length : Int) then
            (some (agents.getD (i - 1).toNat default), reads)
          else manualGo agents inputs fuel try_count reads

/-- Embeds `GroupChat2.manual_select_speaker` (lines 143-168), over an explicit
operator-input stream. -/
def manual_select_speaker (agents : List Agent) (inputs : Nat → String) :
    Option Agent × Nat :=
  manualGo agents inputs 4 0 0

/-- The behavior of the external collaborators consulted by one
`select_speaker` call: the operator's input stream (manual policy), the
random index drawn by `random.choice` (random policy), and the reasoning
backend's reply on the auto path.  `finalReply = none` models
`generate_oai_reply` returning `final = False` (no client); `some none`
models a reply whose text `json.loads` cannot decode (`JSONDecodeError`);
`some (some j)` models a reply decoding to the JSON value `j`. -/
structure SelectorBehavior where
  manualInputs : Nat → String
  randomIndex : Nat
  finalReply : Option (Option Json)

/-- Lines 179-183: the effective repeat permission for `last_speaker`.
`allow_repeat_speaker = None` makes `last_speaker in None` raise
`TypeError`. -/
def effective_allow_repeat (gc : GroupChat2) (last_speaker : Agent) : Except PyErr Bool :=
  match gc.allow_repeat_speaker with
  | some (Sum.inl b) => .ok b
  | some (Sum.inr l) => .ok (l.contains last_speaker)
  | none => .error .typeError

/-- Whether the function-call filter of `select_speaker` triggers (line 200):
`self.func_call_filter and self.messages and "function_call" in
self.messages[-1]`. -/
def funcCallTriggered (gc : GroupChat2) : Bool :=
  gc.func_call_filter &&
    (match gc.messages.getLast? with
     | some m => m.function_call.isSome
     | none => false)

/-- The function-call routing step of `select_speaker` (lines 200-217):
either an early result (`Sum.inl`, returned to the caller unchanged) or the
candidate pool for the rest of the procedure (`Sum.inr`).  When no agent at
all has a function map, the error message interpolates
`self.messages[-1]['name']`, which raises `KeyError` first when the last
message has no name. -/
def funcFilterStep (gc : GroupChat2) :
    Except PyErr (Sum (Option Agent × Option Json) (List Agent)) :=
  if gc.func_call_filter then
    match gc.messages.getLast? with
    | some m =>
      match m.function_call with
      | some fname =>
        let capable := gc.agents.filter (fun a => a.can_execute_function fname)
        if capable.length = 1 then .ok (.inl (capable.head?, none))
        else if capable.isEmpty then
          let withMap := gc.agents.filter (fun a => !a.functionMap.isEmpty)
          if withMap.length = 1 then .ok (.inl (withMap.head?, none))
          else if withMap.isEmpty then
            match m.name with
            | none => .error .keyError
            | some _ => .error .valueError
          else .ok (.inr withMap)
        else .ok (.inr capable)
      | none => .ok (.inr gc.agents)
    | none => .ok (.inr gc.agents)
  else .ok (.inr gc.agents)

/-- Embeds `agent_by_name(parsed_response["who"])` where the argument is a decoded
JSON value: `self.agent_names.index(v)` finds an index only when `v` is a
string equal to some agent name, and raises `ValueError` otherwise. -/
def jsonAgentByName (gc : GroupChat2) (v : Json) : Except PyErr Agent :=
  match v with
  | .str s => gc.agent_by_name s
  | _ => .error .valueError

/-- The auto-selection tail of `select_speaker` (lines 231-258), also reached
when the manual policy falls through.  `update_system_message` and the prompt
construction do not affect the result and are omitted; the backend's behavior
enters through `orc.finalReply`.  The `try` block evaluates
`parsed_response["who"]`, then `agent_by_name`, then `parsed_response["what"]`
(Python evaluates tuple components left to right) and catches only
`ValueError`. -/
def autoTail (gc : GroupChat2) (last_speaker : Agent) (orc : SelectorBehavior)
    (pool : List Agent) : Except PyErr (Option Agent × Option Json) :=
  match orc.finalReply with
  | none =>
    match gc.next_agent last_speaker pool with
    | .error e => .error e
    | .ok nxt => .ok (nxt, none)
  | some none =>
    match gc.next_agent last_speaker pool with
    | .error e => .error e
    | .ok nxt => .ok (nxt, none)
  | some (some parsed) =>
    match pyIndexStr parsed "who" with
    | .error e => .error e
    | .ok who =>
      match jsonAgentByName gc who with
      | .error .valueError =>
        match gc.next_agent last_speaker pool with
        | .error e => .error e
        | .ok nxt => .ok (nxt, none)
      | .error e => .error e
      | .ok a =>
        match pyIndexStr parsed "what" with
        | .error e => .error e
        | .ok what => .ok (some a, some what)

/-- The policy dispatch of `select_speaker` (lines 222-258): manual (falling
through to the auto tail when the operator declines), round_robin, random
(`random.choice` raises `IndexError` on an empty pool), and the auto tail. -/
def policyDispatch (gc : GroupChat2) (last_speaker : Agent) (orc : SelectorBehavior)
    (pool : List Agent) : Except PyErr (Option Agent × Option Json) :=
  if pyLower gc.speaker_selection_method = "manual" then
    match (manual_select_speaker pool orc.manualInputs).1 with
    | some a => .ok (some a, none)
    | none => autoTail gc last_speaker orc pool
  else if pyLower gc.speaker_selection_method = "round_robin" then
    match gc.next_agent last_speaker pool with
    | .error e => .error e
    | .ok nxt => .ok (nxt, none)
  else if pyLower gc.speaker_selection_method = "random" then
    match pool with
    | [] => .error .indexError
    | _ :: _ => .ok (some (pool.getD (orc.randomIndex % pool.length) default), none)
  else autoTail gc last_speaker orc pool

/-- Embeds `GroupChat2.select_speaker` (lines 170-258): policy validation, effective
repeat permission, roster-size validation (the two-agent warning only logs),
function-call routing, repeat filtering, then policy dispatch. -/
def GroupChat2.select_speaker (gc : GroupChat2) (last_speaker : Agent)
    (orc : SelectorBehavior) : Except PyErr (Option Agent × Option Json) :=
  if validSpeakerSelectionMethods.contains (pyLower gc.speaker_selection_method) then
    match effective_allow_repeat gc last_speaker with
    | .error e => .error e
    | .ok allow_repeat =>
      if gc.agents.length < 2 then .error .valueError
      else
        match funcFilterStep gc with
        | .error e => .error e
        | .ok (.inl res) => .ok res
        | .ok (.inr ags) =>
          policyDispatch gc last_speaker orc
            (if allow_repeat then ags else ags.filter (fun a => a != last_speaker))
  else .error .valueError

/-- The moderator directive (`parsed_response["what"]`, a decoded JSON value)
used as a message `content`.  `content_str` accepts a string unchanged; on a
payload that is neither a string nor a content list it raises `TypeError`
(modelled from the spec, §3: content is "normalized to a string even if the
producing participant emitted a structured/multi-part payload"). -/
def contentOfJson : Json → Except PyErr Content
  | .str s => .ok (.str s)
  | _ => .error .typeError

/-- The external collaborators of one orchestrator run: the termination
predicate, each round's reply generation (`none` models "no reply"), and each
round's selector-backend behavior. -/
structure ChatEnv where
  isTermination : Message → Bool
  reply : Nat → Agent → Option Message
  selector : Nat → SelectorBehavior

/-- The `for i in range(groupchat.max_round)` loop of
`GroupChatManager2.run_chat` (lines 344-395).  `fuel + 1` is the number of
remaining iterations, so `fuel = 0` is `i == groupchat.max_round - 1` (the
last round).  Broadcasts (`self.send`) do not touch the ledger and are
omitted; a selection that yields Python `None` as the speaker makes the
subsequent `speaker.generate_reply` raise `AttributeError`.
`KeyboardInterrupt` redirection (lines 381-389) is outside the embedding (no
asynchronous signals). -/
def runChatRounds (env : ChatEnv) (mgr : String) :
    Nat → Nat → GroupChat2 → Agent → Message → Except PyErr GroupChat2
  | _, 0, gc, _, _ => .ok gc
  | i, Nat.succ fuel, gc, speaker, message =>
    let message :=
      if message.role != "function" then { message with name := some speaker.name }
      else message
    let gcm := gc.append message
    let gc := gcm.1
    let message := gcm.2
    if env.isTermination message then .ok gc
    else if fuel = 0 then .ok gc
    else
      match gc.select_speaker speaker (env.selector i) with
      | .error e => .error e
      | .ok (spk?, dir?) =>
        let gcE : Except PyErr GroupChat2 :=
          match dir? with
          | none => .ok gc
          | some dj =>
            match contentOfJson dj with
            | .error e => .error e
            | .ok c =>
              .ok (gc.append { role := "assistant", name := some mgr, content := c,
                               function_call := none }).1
        match gcE with
        | .error e => .error e
        | .ok gc =>
          match spk? with
          | none => .error .attributeError
          | some speaker =>
            match env.reply i speaker with
            | none => .ok gc
            | some reply => runChatRounds env mgr (i + 1) fuel gc speaker reply

/-- Embeds `GroupChatManager2.run_chat` (lines 324-395).  The introduction broadcast
(lines 337-342) sends to every agent but never touches the ledger, so it has
no effect on the embedded state. -/
def GroupChatManager2.run_chat (env : ChatEnv) (mgr : String) (gc : GroupChat2)
    (sender : Agent) (initMsg : Message) : Except PyErr GroupChat2 :=
  runChatRounds env mgr 0 gc.max_round gc sender initMsg

/-- The loop of `GroupChatManager2.a_run_chat` (lines 409-446).  Line 429
binds the pair returned by `select_speaker` to the variable `speaker`
without unpacking it; the following `speaker.a_generate_reply(sender=self)`
is attribute access on a tuple and raises `AttributeError`, which the
surrounding `except KeyboardInterrupt` does not catch.  There is no
introduction broadcast and no directive handling in this mode. -/
def aRunChatRounds (env : ChatEnv) (_mgr : String) :
    Nat → Nat → GroupChat2 → Agent → Message → Except PyErr GroupChat2
  | _, 0, gc, _, _ => .ok gc
  | i, Nat.succ fuel, gc, speaker, message =>
    let message :=
      if message.role != "function" then { message with name := some speaker.name }
      else message
    let gcm := gc.append message
    let gc := gcm.1
    let message := gcm.2
    if env.isTermination message then .ok gc
    else if fuel = 0 then .ok gc
    else
      match gc.select_speaker speaker (env.selector i) with
      | .error e => .error e
      | .ok _pair => .error .attributeError

/-- Embeds `GroupChatManager2.a_run_chat` (lines 397-446). -/
def GroupChatManager2.a_run_chat (env : ChatEnv) (mgr : String) (gc : GroupChat2)
    (sender : Agent) (initMsg : Message) : Except PyErr GroupChat2 :=
  aRunChatRounds env mgr 0 gc.max_round gc sender initMsg

/-- The identity and protocol conformance of a class passed to
`SerializableRegistry.register` (`store.py`): `clsId` is
`f"{cls.__module__}.{cls.__qualname__}"` (also the default type tag) and
`isSerializable` is `issubclass(cls, Serializable)`. -/
structure SerializableClass where
  clsId : String
  isSerializable : Bool
deriving DecidableEq

/-- Embeds `SerializableRegistry._registry`: the tag-to-class mapping, in insertion
order. -/
abbrev Registry := List (String × SerializableClass)

/-- Embeds `SerializableRegistry.register` (`store.py` lines 14-57) applied to one
class: the validation checks in source order (protocol conformance, duplicate
class, duplicate tag), each raising `ValueError` before any mutation; on
success the class is stored under the tag.  The result pairs the raised
error (if any) with the registry after the call. -/
def registerRun (reg : Registry) (type_name : Option String) (c : SerializableClass) :
    Option PyErr × Registry :=
  let tn := type_name.getD c.clsId
  if !c.isSerializable then (some .valueError, reg)
  else if (reg.map Prod.snd).contains c then (some .valueError, reg)
  else if (reg.map Prod.fst).contains tn then (some .valueError, reg)
  else (none, reg ++ [(tn, c)])

/-- Python heap semantics for `GroupChat2.append`: message dicts live in a
store addressed by reference, `msgRefs` is `self.messages` as a list of
references. -/
structure LedgerState where
  heap : List Message
  msgRefs : List Nat

/-- Embeds `GroupChat2.append` (lines 56-62) over the explicit heap: the caller's
dict at `ref` is updated in place (`message["content"] =
content_str(message["content"])`) and the same reference — not a copy — is
appended to `self.messages`. -/
def appendH (st : LedgerState) (ref : Nat) : LedgerState :=
  match st.heap[ref]? with
  | none => st
  | some m =>
    { heap := st.heap.set ref { m with content := Content.str (content_str m.content) },
      msgRefs := st.msgRefs ++ [ref] }

/-- The full-roster branch of `next_agent` (lines 70-77) as a total function:
the roster member one position after `a` (position 0 when `a`'s name is not
found), wrapping around. -/
def roundRobinNext (gc : GroupChat2) (a : Agent) : Agent :=
  gc.agents.getD (((listIndex? gc.agent_names a.name).getD 0 + 1) % gc.agents.length) default

/-! Concrete configurations used by the counterexamples and witnesses. -/

def agA : Agent := ⟨"A", "first participant", []⟩

def agB : Agent := ⟨"B", "second participant", []⟩

/-- An oracle for runs where no collaborator input is consulted: the backend
produces no reply (`final = False`), the operator always enters nothing. -/
def orcNone : SelectorBehavior := ⟨fun _ => "", 0, none⟩

/-- Two agents, auto policy, repeats disallowed, empty ledger. -/
def gcC1 : GroupChat2 :=
  { agents := [agA, agB], messages := [], max_round := 10, admin_name := "Admin",
    func_call_filter := true, speaker_selection_method := "auto",
    allow_repeat_speaker := some (Sum.inl false) }

/-- Backend reply decoding to a well-formed decision that names the last
speaker `A`. -/
def orcC1 : SelectorBehavior :=
  ⟨fun _ => "", 0, some (some (Json.obj [("who", Json.str "A"), ("what", Json.str "w")]))⟩

/-- Backend reply decoding to a JSON object with no `"who"` field. -/
def orcC3missing : SelectorBehavior :=
  ⟨fun _ => "", 0, some (some (Json.obj [("why", Json.str "r")]))⟩

/-- Backend reply decoding to a JSON value that is not an object. -/
def orcC3nonobj : SelectorBehavior :=
  ⟨fun _ => "", 0, some (some (Json.str "A"))⟩

/-- Backend reply decoding to an object whose `"who"` names no roster
member. -/
def orcC3unres : SelectorBehavior :=
  ⟨fun _ => "", 0, some (some (Json.obj [("who", Json.str "Z"), ("what", Json.str "w")]))⟩

/-- Backend reply whose text `json.loads` cannot decode. -/
def orcJsonErr : SelectorBehavior := ⟨fun _ => "", 0, some none⟩

/-- Like `gcC1` but with repeats allowed. -/
def gcC7w : GroupChat2 := { gcC1 with allow_repeat_speaker := some (Sum.inl true) }

/-- Round-robin chat used to compare the two execution modes. -/
def gcC2 : GroupChat2 :=
  { agents := [agA, agB], messages := [], max_round := 3, admin_name := "Admin",
    func_call_filter := true, speaker_selection_method := "round_robin",
    allow_repeat_speaker := some (Sum.inl true) }

/-- Collaborators for the run comparison: nothing terminates, every speaker
replies `"ok"`, the backend is never willing to decide. -/
def envC2 : ChatEnv :=
  { isTermination := fun _ => false,
    reply := fun _ a => some ⟨"assistant", some a.name, .str "ok", none⟩,
    selector := fun _ => orcNone }

def msgC2 : Message := ⟨"user", none, .str "hi", none⟩

/-- Operator input streams for the manual policy. -/
def inpTwoFailsThenValid : Nat → String := fun n => ["x", "0", "2"].getD n ""

def inpEmpty : Nat → String := fun _ => ""

def inpQuit : Nat → String := fun _ => "q"

def inpValidTwo : Nat → String := fun n => ["2"].getD n ""

def inpOutOfRangeThenValid : Nat → String := fun n => ["7", "2"].getD n ""

/-- An agent able to execute `run_tests`. -/
def agRunner : Agent := ⟨"B", "test runner", ["run_tests"]⟩

/-- Function-call routing configuration: the newest ledger message requests
`run_tests` and only `agRunner` can execute it. -/
def gcC5 : GroupChat2 :=
  { agents := [agA, agRunner],
    messages := [⟨"assistant", some "A", .str "please run", some "run_tests"⟩],
    max_round := 10, admin_name := "Admin", func_call_filter := true,
    speaker_selection_method := "random",
    allow_repeat_speaker := some (Sum.inl false) }

def agX : Agent := ⟨"Admin", "admin", []⟩

def agY : Agent := ⟨"Coder", "coder", []⟩

def agZ : Agent := ⟨"Reviewer", "reviewer", []⟩

/-- Three-agent round-robin chat with the full candidate pool. -/
def gcC6 : GroupChat2 :=
  { agents := [agX, agY, agZ], messages := [], max_round := 5, admin_name := "Admin",
    func_call_filter := true, speaker_selection_method := "round_robin",
    allow_repeat_speaker := some (Sum.inl true) }

def clsSerA : SerializableClass := ⟨"mod.A", true⟩

def clsSerB : SerializableClass := ⟨"mod.B", true⟩

def regSer0 : Registry := [("tag1", clsSerA)]

/-- A heap with one message object holding structured (multi-part) content. -/
def stC10 : LedgerState :=
  { heap := [⟨"user", some "A", .parts [.text "hello ", .nonText], none⟩],
    msgRefs := [] }

/-! Claim theorems. -/

/-- C8: for every `GroupChat2` state, `reset()` empties the message history
and changes nothing else: `agents`, `max_round`, `admin_name`,
`func_call_filter`, `speaker_selection_method` and `allow_repeat_speaker`
keep their values. -/
theorem c8_reset_frame (gc : GroupChat2) :
    gc.reset.messages = []
    ∧ gc.reset.agents = gc.agents
    ∧ gc.reset.max_round = gc.max_round
    ∧ gc.reset.admin_name = gc.admin_name
    ∧ gc.reset.func_call_filter = gc.func_call_filter
    ∧ gc.reset.speaker_selection_method = gc.speaker_selection_method
    ∧ gc.reset.allow_repeat_speaker = gc.allow_repeat_speaker :=
  ⟨rfl, rfl, rfl, rfl, rfl, rfl, rfl⟩

/-- C9: `register` fails when the type tag is already present or when the
class is already registered under any tag, leaving the registry unchanged in
the failure case; a successful registration appends exactly the one new
tag-to-class entry. -/
theorem c9_register_validated (reg : Registry) (tn : Option String) (c : SerializableClass) :
    ((reg.map Prod.fst).contains (tn.getD c.clsId) = true
        ∨ (reg.map Prod.snd).contains c = true →
      (registerRun reg tn c).1.isSome = true ∧ (registerRun reg tn c).2 = reg)
    ∧ ((registerRun reg tn c).1 = none →
      (registerRun reg tn c).2 = reg ++ [(tn.getD c.clsId, c)]) := by
  unfold registerRun
  cases h1 : c.isSerializable <;>
    cases h2 : (reg.map Prod.snd).contains c <;>
      cases h3 : (reg.map Prod.fst).contains (tn.getD c.clsId) <;>
        simp only [h1, h2, h3, Bool.not_true, Bool.not_false, if_true, if_false,
          Bool.false_eq_true, Bool.true_eq_false, ite_true, ite_false] <;>
        simp

/-- Witness for C9: registering `clsSerB` under the already-present tag
`"tag1"` fails and leaves the registry unchanged; registering it under the
fresh tag `"tag2"` succeeds and appends exactly that entry. -/
theorem c9_register_validated_witness :
    ((regSer0.map Prod.fst).contains ((some "tag1").getD clsSerB.clsId) = true)
    ∧ ((registerRun regSer0 (some "tag1") clsSerB).1.isSome = true
        ∧ (registerRun regSer0 (some "tag1") clsSerB).2 = regSer0)
    ∧ (registerRun regSer0 (some "tag2") clsSerB).2
        = regSer0 ++ [((some "tag2").getD clsSerB.clsId, clsSerB)] :=
  ⟨by decide,
   (c9_register_validated regSer0 (some "tag1") clsSerB).1 (Or.inl (by decide)),
   (c9_register_validated regSer0 (some "tag2") clsSerB).2 (by decide)⟩

/-- C10: `append` mutates the caller's message object in place — the object
it appends to the history is the caller's object itself (same heap
reference), whose `content` now holds the flattened string normalization —
and no other heap object changes. -/
theorem c10_append_inplace_alias (st : LedgerState) (ref : Nat)
    (h : ref < st.heap.length) (gc : GroupChat2) (m : Message) :
    (appendH st ref).msgRefs = st.msgRefs ++ [ref]
    ∧ ((appendH st ref).heap.getD ref default).content
        = Content.str (content_str ((st.heap.getD ref default).content))
    ∧ (∀ r, r ≠ ref → (appendH st ref).heap[r]? = st.heap[r]?)
    ∧ (gc.append m).2.content = Content.str (content_str m.content)
    ∧ (gc.append m).1.messages = gc.messages ++ [(gc.append m).2] := by
  have hsome : st.heap[ref]? = some st.heap[ref] := List.getElem?_eq_getElem h
  refine ⟨?_, ?_, ?_, rfl, rfl⟩
  · simp [appendH, hsome]
  · simp [appendH, hsome, List.getD_eq_getElem?_getD, List.getElem?_set_self, h]
  · intro r hr
    simp [appendH, hsome, List.getElem?_set_ne (fun he => hr he.symm)]

/-- Witness for C10 at a one-object heap whose message holds multi-part
content. -/
theorem c10_append_inplace_alias_witness :
    (appendH stC10 0).msgRefs = stC10.msgRefs ++ [0]
    ∧ ((appendH stC10 0).heap.getD 0 default).content
        = Content.str (content_str ((stC10.heap.getD 0 default).content))
    ∧ (∀ r, r ≠ 0 → (appendH stC10 0).heap[r]? = stC10.heap[r]?)
    ∧ (gcC1.append ⟨"user", some "A", .parts [.text "hello ", .nonText], none⟩).2.content
        = Content.str (content_str (Content.parts [.text "hello ", .nonText]))
    ∧ (gcC1.append ⟨"user", some "A", .parts [.text "hello ", .nonText], none⟩).1.messages
        = gcC1.messages
          ++ [(gcC1.append ⟨"user", some "A", .parts [.text "hello ", .nonText], none⟩).2] :=
  c10_append_inplace_alias stC10 0 (by decide) gcC1
    ⟨"user", some "A", .parts [.text "hello ", .nonText], none⟩

/-- C4 (code bug): under the manual policy, empty input or `q` falls through
immediately after one read; a valid in-range index is returned (also after a
reprompt); but after only TWO failed attempts the loop stops prompting (the
`try_count >= 3` break fires before the third `input()`), so a valid third
input is never read — the source's own comment and printed message promise 3
tries. -/
theorem c4_manual_retry_eval :
    manual_select_speaker [agA, agB] inpTwoFailsThenValid = (none, 2)
    ∧ manual_select_speaker [agA, agB] inpEmpty = (none, 1)
    ∧ manual_select_speaker [agA, agB] inpQuit = (none, 1)
    ∧ manual_select_speaker [agA, agB] inpValidTwo = (some agB, 1)
    ∧ manual_select_speaker [agA, agB] inpOutOfRangeThenValid = (some agB, 2) := by
  refine ⟨by decide, by decide, by decide, by decide, by decide⟩

/-- C2 (code bug): on the same inputs and collaborator behavior, the blocking
run completes normally with a three-message ledger, while the suspendable run
raises `AttributeError` as soon as it reaches speaker selection, because
`a_run_chat` binds the `(speaker, directive)` pair returned by
`select_speaker` to `speaker` without unpacking it and then invokes
`a_generate_reply` on the pair. -/
theorem c2_sync_async_divergence :
    GroupChatManager2.run_chat envC2 "chat_manager" gcC2 agA msgC2
      = .ok { gcC2 with messages :=
          [⟨"user", some "A", Content.str "hi", none⟩,
           ⟨"assistant", some "B", Content.str "ok", none⟩,
           ⟨"assistant", some "A", Content.str "ok", none⟩] }
    ∧ GroupChatManager2.a_run_chat envC2 "chat_manager" gcC2 agA msgC2
      = .error PyErr.attributeError := by
  refine ⟨by decide, by decide⟩

/-- Counterexample to C1: with repeats disallowed (`allow_repeat_speaker =
False`) and the auto policy, a backend decision that names the last speaker
is resolved against the full roster, so `select_speaker` returns the last
speaker. -/
theorem c1_auto_repeat_cex :
    gcC1.allow_repeat_speaker = some (Sum.inl false)
    ∧ gcC1.speaker_selection_method = "auto"
    ∧ gcC1.select_speaker agA orcC1 = .ok (some agA, some (Json.str "w")) :=
  ⟨rfl, rfl, rfl⟩

/-- Counterexample to C3: a backend reply that decodes to a JSON object
without a `"who"` field makes `select_speaker` raise `KeyError`, and one that
decodes to a non-object raises `TypeError`; neither is recovered into the
`next_in_order` fallback. -/
theorem c3_malformed_raises_cex :
    gcC1.select_speaker agA orcC3missing = .error PyErr.keyError
    ∧ gcC1.select_speaker agA orcC3nonobj = .error PyErr.typeError :=
  ⟨rfl, rfl⟩

/-! Helper lemmas about the selector. -/

/-- When the function-call filter does not trigger, the routing step leaves
the candidate pool equal to the full roster. -/
theorem funcFilterStep_not_triggered (gc : GroupChat2) (h : funcCallTriggered gc = false) :
    funcFilterStep gc = .ok (.inr gc.agents) := by
  unfold funcCallTriggered at h
  unfold funcFilterStep
  cases hf : gc.func_call_filter with
  | false => simp
  | true =>
    rw [hf] at h
    simp only [Bool.true_and] at h
    cases hl : gc.messages.getLast? with
    | none => simp
    | some m =>
      rw [hl] at h
      simp only [] at h
      cases hfc : m.function_call with
      | none => simp [hfc]
      | some f => rw [hfc] at h; simp at h

/-- Under a valid policy, a computed repeat permission, a roster of size at
least 2, and no function-call routing, `select_speaker` is exactly the policy
dispatch on the repeat-filtered candidate pool. -/
theorem select_speaker_eq_dispatch (gc : GroupChat2) (last : Agent) (orc : SelectorBehavior)
    (b : Bool)
    (hval : validSpeakerSelectionMethods.contains (pyLower gc.speaker_selection_method) = true)
    (hallow : effective_allow_repeat gc last = .ok b)
    (h2 : 2 ≤ gc.agents.length)
    (hfc : funcCallTriggered gc = false) :
    gc.select_speaker last orc
      = policyDispatch gc last orc
          (if b then gc.agents else gc.agents.filter (fun a => a != last)) := by
  unfold GroupChat2.select_speaker
  rw [if_pos hval, hallow]
  simp only []
  rw [if_neg (Nat.not_lt.mpr h2), funcFilterStep_not_triggered gc hfc]

/-- An agent produced by the manual-selection loop is drawn from the
presented candidate list. -/
theorem manualGo_mem (agents : List Agent) (inputs : Nat → String) :
    ∀ fuel tc reads a, (manualGo agents inputs fuel tc reads).1 = some a → a ∈ agents := by
  intro fuel
  induction fuel with
  | zero => intro tc reads a h; simp [manualGo] at h
  | succ fuel ih =>
    intro tc reads a h
    unfold manualGo at h
    by_cases h3 : tc + 1 ≥ 3
    · rw [if_pos h3] at h; simp at h
    · rw [if_neg h3] at h
      by_cases hq : inputs reads = "" ∨ inputs reads = "q"
      · rw [if_pos hq] at h; simp at h
      · rw [if_neg hq] at h
        cases hp : pyInt? (inputs reads) with
        | none => rw [hp] at h; exact ih _ _ _ h
        | some i =>
          rw [hp] at h
          simp only [] at h
          by_cases hr : 0 < i ∧ i ≤ (agents.length : Int)
          · rw [if_pos hr] at h
            simp only [Prod.fst] at h
            have hi : (i - 1).toNat < agents.length := by omega
            have := List.getD_eq_getElem?_getD agents (i - 1).toNat default
            rw [List.getElem?_eq_getElem hi] at this
            simp only [Option.getD_some] at this
            have ha : a = agents[(i - 1).toNat] := by
              injection h with h'
              rw [← h', this]
            rw [ha]
            exact List.getElem_mem hi
          · rw [if_neg hr] at h; exact ih _ _ _ h

/-- The function `manual_select_speaker` only returns members of the candidate list. -/
theorem manual_select_speaker_mem (agents : List Agent) (inputs : Nat → String) (a : Agent)
    (h : (manual_select_speaker agents inputs).1 = some a) : a ∈ agents :=
  manualGo_mem agents inputs 4 0 0 a h

/-- The function `next_agent` only returns members of the candidate pool it is given. -/
theorem next_agent_mem (gc : GroupChat2) (ag : Agent) (pool : List Agent) (b : Agent)
    (h : gc.next_agent ag pool = .ok (some b)) : b ∈ pool := by
  unfold GroupChat2.next_agent at h
  by_cases heq : pool = gc.agents
  · rw [if_pos heq] at h
    by_cases hlen : pool.length = 0
    · rw [if_pos hlen] at h; exact absurd h (by simp)
    · rw [if_neg hlen] at h
      have h' : pool[((listIndex? gc.agent_names ag.name).getD 0 + 1) % pool.length]?
          = some b := by injection h
      exact List.getElem?_mem h'
  · rw [if_neg heq] at h
    have h' : (List.range gc.agents.length).findSome? (fun i =>
        match gc.agents[(nextAgentOffset gc ag + i) % gc.agents.length]? with
        | some a => if pool.contains a then some a else none
        | none => none) = some b := by injection h
    obtain ⟨i, _, hf⟩ := List.exists_of_findSome?_eq_some h'
    cases hg : gc.agents[(nextAgentOffset gc ag + i) % gc.agents.length]? with
    | none => rw [hg] at hf; simp at hf
    | some c =>
      rw [hg] at hf
      simp only [] at hf
      by_cases hc : pool.contains c
      · rw [if_pos hc] at hf
        have hcb : c = b := by injection hf
        rw [← hcb]
        exact List.mem_of_elem_eq_true hc
      · rw [if_neg hc] at hf; simp at hf

/-- Members of the repeat-filtered pool differ from the last speaker. -/
theorem mem_filter_ne_last (l : List Agent) (last a : Agent)
    (h : a ∈ l.filter (fun x => x != last)) : a ≠ last := by
  have := (List.mem_filter.mp h).2
  simpa using this

/-- The auto-selection tail never returns an agent outside the pool as long
as the parsed backend decision does not resolve to the last speaker. -/
theorem autoTail_not_last (gc : GroupChat2) (last : Agent) (orc : SelectorBehavior)
    (pool : List Agent)
    (hpool : ∀ a ∈ pool, a ≠ last)
    (hwho : ∀ j w, orc.finalReply = some (some j) → pyIndexStr j "who" = .ok w →
        jsonAgentByName gc w ≠ .ok last) :
    ∀ res, autoTail gc last orc pool = .ok res → res.1 ≠ some last := by
  intro res h hcontra
  unfold autoTail at h
  cases hfr : orc.finalReply with
  | none =>
    rw [hfr] at h
    simp only [] at h
    cases hna : gc.next_agent last pool with
    | error e => rw [hna] at h; exact absurd h (by simp)
    | ok nxt =>
      rw [hna] at h
      simp only [] at h
      have hres : res = (nxt, none) := by injection h with h'; exact h'.symm
      rw [hres] at hcontra
      rw [show nxt = some last from hcontra] at hna
      exact hpool last (next_agent_mem gc last pool last hna) rfl
  | some dec =>
    cases dec with
    | none =>
      rw [hfr] at h
      simp only [] at h
      cases hna : gc.next_agent last pool with
      | error e => rw [hna] at h; exact absurd h (by simp)
      | ok nxt =>
        rw [hna] at h
        simp only [] at h
        have hres : res = (nxt, none) := by injection h with h'; exact h'.symm
        rw [hres] at hcontra
        rw [show nxt = some last from hcontra] at hna
        exact hpool last (next_agent_mem gc last pool last hna) rfl
    | some parsed =>
      rw [hfr] at h
      simp only [] at h
      cases hwi : pyIndexStr parsed "who" with
      | error e => rw [hwi] at h; simp only [] at h; exact absurd h (by simp)
      | ok who =>
        rw [hwi] at h
        simp only [] at h
        cases hab : jsonAgentByName gc who with
        | error e =>
          cases e with
          | valueError =>
            rw [hab] at h
            simp only [] at h
            cases hna : gc.next_agent last pool with
            | error e2 => rw [hna] at h; exact absurd h (by simp)
            | ok nxt =>
              rw [hna] at h
              simp only [] at h
              have hres : res = (nxt, none) := by injection h with h'; exact h'.symm
              rw [hres] at hcontra
              rw [show nxt = some last from hcontra] at hna
              exact hpool last (next_agent_mem gc last pool last hna) rfl
          | keyError => rw [hab] at h; simp only [] at h; exact absurd h (by simp)
          | typeError => rw [hab] at h; simp only [] at h; exact absurd h (by simp)
          | indexError => rw [hab] at h; simp only [] at h; exact absurd h (by simp)
          | attributeError => rw [hab] at h; simp only [] at h; exact absurd h (by simp)
          | zeroDivisionError => rw [hab] at h; simp only [] at h; exact absurd h (by simp)
        | ok a =>
          rw [hab] at h
          simp only [] at h
          cases hwa : pyIndexStr parsed "what" with
          | error e => rw [hwa] at h; simp only [] at h; exact absurd h (by simp)
          | ok what =>
            rw [hwa] at h
            simp only [] at h
            have hres : res = (some a, some what) := by injection h with h'; exact h'.symm
            rw [hres] at hcontra
            have ha : a = last := by injection hcontra
            rw [ha] at hab
            exact hwho parsed who hfr hwi hab

/-- No branch of the policy dispatch returns the last speaker when the pool
excludes it and the parsed backend decision does not resolve to it. -/
theorem policyDispatch_not_last (gc : GroupChat2) (last : Agent) (orc : SelectorBehavior)
    (pool : List Agent)
    (hpool : ∀ a ∈ pool, a ≠ last)
    (hwho : ∀ j w, orc.finalReply = some (some j) → pyIndexStr j "who" = .ok w →
        jsonAgentByName gc w ≠ .ok last) :
    ∀ res, policyDispatch gc last orc pool = .ok res → res.1 ≠ some last := by
  intro res h hcontra
  unfold policyDispatch at h
  by_cases hm : pyLower gc.speaker_selection_method = "manual"
  · rw [if_pos hm] at h
    cases hsel : (manual_select_speaker pool orc.manualInputs).1 with
    | some a =>
      rw [hsel] at h
      simp only [] at h
      have hres : res = (some a, none) := by injection h with h'; exact h'.symm
      rw [hres] at hcontra
      have ha : a = last := by injection hcontra
      exact hpool a (manual_select_speaker_mem pool orc.manualInputs a hsel) ha
    | none =>
      rw [hsel] at h
      simp only [] at h
      exact autoTail_not_last gc last orc pool hpool hwho res h hcontra
  · rw [if_neg hm] at h
    by_cases hrr : pyLower gc.speaker_selection_method = "round_robin"
    · rw [if_pos hrr] at h
      cases hna : gc.next_agent last pool with
      | error e => rw [hna] at h; exact absurd h (by simp)
      | ok nxt =>
        rw [hna] at h
        simp only [] at h
        have hres : res = (nxt, none) := by injection h with h'; exact h'.symm
        rw [hres] at hcontra
        rw [show nxt = some last from hcontra] at hna
        exact hpool last (next_agent_mem gc last pool last hna) rfl
    · rw [if_neg hrr] at h
      by_cases hrd : pyLower gc.speaker_selection_method = "random"
      · rw [if_pos hrd] at h
        cases hpl : pool with
        | nil => rw [hpl] at h; simp only [] at h; exact absurd h (by simp)
        | cons p ps =>
          rw [hpl] at h
          simp only [] at h
          have hres : res
              = (some ((p :: ps).getD (orc.randomIndex % (p :: ps).length) default), none) := by
            injection h with h'; exact h'.symm
          rw [hres] at hcontra
          have ha : (p :: ps).getD (orc.randomIndex % (p :: ps).length) default = last := by
            injection hcontra
          have hlt : orc.randomIndex % (p :: ps).length < (p :: ps).length :=
            Nat.mod_lt _ (by simp)
          have hmem : (p :: ps).getD (orc.randomIndex % (p :: ps).length) default ∈ p :: ps := by
            rw [List.getD_eq_getElem?_getD, List.getElem?_eq_getElem hlt]
            exact List.getElem_mem hlt
          rw [hpl] at hpool
          exact hpool _ hmem ha
      · rw [if_neg hrd] at h
        exact autoTail_not_last gc last orc pool hpool hwho res h hcontra

/-- C1 (amended): with repeats disallowed for the last speaker, a roster of
size at least 2, no function-call routing, and a backend whose parsed
decision does not resolve to the last speaker, `select_speaker` never
returns the last speaker under any policy.  (The amendment is forced by the
counterexample `c1_auto_repeat_cex`: a parsed auto decision naming the last
speaker is resolved against the full roster and is returned as-is.) -/
theorem c1_no_repeat_amended (gc : GroupChat2) (last : Agent) (orc : SelectorBehavior)
    (hval : validSpeakerSelectionMethods.contains (pyLower gc.speaker_selection_method) = true)
    (hallow : effective_allow_repeat gc last = .ok false)
    (h2 : 2 ≤ gc.agents.length)
    (hfc : funcCallTriggered gc = false)
    (hwho : ∀ j w, orc.finalReply = some (some j) → pyIndexStr j "who" = .ok w →
        jsonAgentByName gc w ≠ .ok last) :
    ∀ res, gc.select_speaker last orc = .ok res → res.1 ≠ some last := by
  intro res h
  rw [select_speaker_eq_dispatch gc last orc false hval hallow h2 hfc] at h
  simp only [Bool.false_eq_true, if_false, ite_false] at h
  exact policyDispatch_not_last gc last orc _
    (fun a ha => mem_filter_ne_last _ _ _ ha) hwho res h

/-- Witness for C1 (amended): two agents, auto policy, repeats disallowed,
backend unable to decide — the selector picks the other agent, not the last
speaker. -/
theorem c1_no_repeat_amended_witness :
    gcC1.select_speaker agA orcNone = .ok (some agB, none)
    ∧ ((some agB : Option Agent) ≠ some agA) :=
  ⟨rfl, c1_no_repeat_amended gcC1 agA orcNone (by decide) rfl (by decide) rfl
      (fun j w hj => nomatch hj) (some agB, none) rfl⟩

/-- When the backend reply is undecodable, or decodes but its participant
name does not resolve, the auto tail is exactly round-order selection on the
same pool. -/
theorem autoTail_fallback (gc : GroupChat2) (last : Agent) (orc : SelectorBehavior)
    (pool : List Agent)
    (hresp : orc.finalReply = some none
      ∨ ∃ j w, orc.finalReply = some (some j) ∧ pyIndexStr j "who" = .ok w
          ∧ jsonAgentByName gc w = .error .valueError) :
    autoTail gc last orc pool
      = (gc.next_agent last pool).map (fun nxt => (nxt, none)) := by
  unfold autoTail
  rcases hresp with hr | ⟨j, w, hr, hwi, hab⟩
  · rw [hr]
    simp only []
    cases hna : gc.next_agent last pool with
    | error e => simp [Except.map]
    | ok nxt => simp [Except.map]
  · rw [hr]
    simp only []
    rw [hwi]
    simp only []
    rw [hab]
    simp only []
    cases hna : gc.next_agent last pool with
    | error e => simp [Except.map]
    | ok nxt => simp [Except.map]

/-- C3 (amended): on the auto path, a backend reply whose text cannot be
decoded as JSON, or which decodes but names no roster member, is recovered:
`select_speaker` returns exactly the `next_in_order` fallback on the current
candidate pool.  (The amendment is forced by `c3_malformed_raises_cex`: a
decodable reply lacking the `"who"` field raises `KeyError` and a decodable
non-object reply raises `TypeError`, neither of which is recovered.) -/
theorem c3_fallback_amended (gc : GroupChat2) (last : Agent) (orc : SelectorBehavior) (b : Bool)
    (hm : pyLower gc.speaker_selection_method = "auto")
    (hallow : effective_allow_repeat gc last = .ok b)
    (h2 : 2 ≤ gc.agents.length)
    (hfc : funcCallTriggered gc = false)
    (hresp : orc.finalReply = some none
      ∨ ∃ j w, orc.finalReply = some (some j) ∧ pyIndexStr j "who" = .ok w
          ∧ jsonAgentByName gc w = .error .valueError) :
    gc.select_speaker last orc
      = (gc.next_agent last
            (if b then gc.agents else gc.agents.filter (fun a => a != last))).map
          (fun nxt => (nxt, none)) := by
  have hval : validSpeakerSelectionMethods.contains (pyLower gc.speaker_selection_method)
      = true := by rw [hm]; decide
  rw [select_speaker_eq_dispatch gc last orc b hval hallow h2 hfc]
  unfold policyDispatch
  rw [hm]
  simp only [String.reduceEq, reduceIte]
  exact autoTail_fallback gc last orc _ hresp

/-- Witness for C3 (amended): repeats disallowed, backend decision naming the
unknown participant `"Z"` — the selector falls back to round order. -/
theorem c3_fallback_amended_witness :
    gcC1.select_speaker agA orcC3unres
      = (gcC1.next_agent agA
            (if false then gcC1.agents else gcC1.agents.filter (fun a => a != agA))).map
          (fun nxt => (nxt, none)) :=
  c3_fallback_amended gcC1 agA orcC3unres false (by decide) rfl (by decide) rfl
    (Or.inr ⟨Json.obj [("who", Json.str "Z"), ("what", Json.str "w")], Json.str "Z",
      rfl, rfl, rfl⟩)

/-- C7: on the auto path, a backend reply whose text cannot be decoded as
JSON yields exactly `(next_in_order(lastSpeaker, candidatePool), no
directive)` — the malformed-decision fallback is extensionally round-order
selection on the same pool, hence deterministic. -/
theorem c7_jsondecode_fallback_deterministic (gc : GroupChat2) (last : Agent)
    (orc : SelectorBehavior) (b : Bool)
    (hm : pyLower gc.speaker_selection_method = "auto")
    (hallow : effective_allow_repeat gc last = .ok b)
    (h2 : 2 ≤ gc.agents.length)
    (hfc : funcCallTriggered gc = false)
    (hresp : orc.finalReply = some none) :
    gc.select_speaker last orc
      = (gc.next_agent last
            (if b then gc.agents else gc.agents.filter (fun a => a != last))).map
          (fun nxt => (nxt, none)) := by
  have hval : validSpeakerSelectionMethods.contains (pyLower gc.speaker_selection_method)
      = true := by rw [hm]; decide
  rw [select_speaker_eq_dispatch gc last orc b hval hallow h2 hfc]
  unfold policyDispatch
  rw [hm]
  simp only [String.reduceEq, reduceIte]
  exact autoTail_fallback gc last orc _ (Or.inl hresp)

/-- Witness for C7: repeats allowed, undecodable backend reply — the selector
equals round-order selection on the full roster. -/
theorem c7_jsondecode_fallback_deterministic_witness :
    gcC7w.select_speaker agA orcJsonErr
      = (gcC7w.next_agent agA
            (if true then gcC7w.agents else gcC7w.agents.filter (fun a => a != agA))).map
          (fun nxt => (nxt, none)) :=
  c7_jsondecode_fallback_deterministic gcC7w agA orcJsonErr true (by decide) rfl
    (by decide) rfl rfl

/-- When the function-call routing step short-circuits with a single capable
agent, `select_speaker` returns it regardless of the oracle. -/
theorem select_speaker_funcfilter_single (gc : GroupChat2) (last : Agent) (a : Agent) (b : Bool)
    (hval : validSpeakerSelectionMethods.contains (pyLower gc.speaker_selection_method) = true)
    (hallow : effective_allow_repeat gc last = .ok b)
    (h2 : 2 ≤ gc.agents.length)
    (hstep : funcFilterStep gc = .ok (.inl (some a, none))) :
    ∀ orc, gc.select_speaker last orc = .ok (some a, none) := by
  intro orc
  unfold GroupChat2.select_speaker
  rw [if_pos hval, hallow]
  simp only []
  rw [if_neg (Nat.not_lt.mpr h2), hstep]

/-- C5: with `func_call_filter` enabled, a newest ledger message carrying a
function call, and exactly one roster member whose function table contains
the requested name, `select_speaker` returns that member with no directive,
for every oracle (operator input, random draw, backend decision) and for
every valid selection policy — the configured policy is never consulted. -/
theorem c5_function_filter_shortcircuit (gc : GroupChat2) (last : Agent) (f : String)
    (a : Agent) (b : Bool) (m : Message)
    (hval : validSpeakerSelectionMethods.contains (pyLower gc.speaker_selection_method) = true)
    (hallow : effective_allow_repeat gc last = .ok b)
    (h2 : 2 ≤ gc.agents.length)
    (hff : gc.func_call_filter = true)
    (hlast : gc.messages.getLast? = some m)
    (hfc : m.function_call = some f)
    (hcap : gc.agents.filter (fun x => x.can_execute_function f) = [a]) :
    (∀ orc, gc.select_speaker last orc = .ok (some a, none))
    ∧ (∀ meth orc, validSpeakerSelectionMethods.contains (pyLower meth) = true →
        ({ gc with speaker_selection_method := meth } : GroupChat2).select_speaker last orc
          = .ok (some a, none)) := by
  have hstep : funcFilterStep gc = .ok (.inl (some a, none)) := by
    unfold funcFilterStep
    simp [hff, hlast, hfc, hcap]
  refine ⟨select_speaker_funcfilter_single gc last a b hval hallow h2 hstep, ?_⟩
  intro meth orc hvalm
  exact select_speaker_funcfilter_single { gc with speaker_selection_method := meth }
    last a b hvalm hallow h2 hstep orc

/-- Witness for C5: only `agRunner` can execute the requested `run_tests`,
and it is selected with no directive under the configured random policy (for
two different oracles) and equally under the round_robin policy. -/
theorem c5_function_filter_shortcircuit_witness :
    gcC5.select_speaker agA orcNone = .ok (some agRunner, none)
    ∧ gcC5.select_speaker agA orcC1 = .ok (some agRunner, none)
    ∧ ({ gcC5 with speaker_selection_method := "round_robin" } : GroupChat2).select_speaker
        agA orcNone = .ok (some agRunner, none) := by
  have h := c5_function_filter_shortcircuit gcC5 agA "run_tests" agRunner false
    ⟨"assistant", some "A", .str "please run", some "run_tests"⟩
    (by decide) rfl (by decide) rfl rfl rfl (by decide)
  exact ⟨h.1 orcNone, h.1 orcC1, h.2 "round_robin" orcNone (by decide)⟩

/-- Python `list.index` finds the exact position of an element of a duplicate-free
list. -/
theorem listIndex_self (l : List String) (hnd : l.Nodup) :
    ∀ m, (h : m < l.length) → listIndex? l l[m] = some m := by
  induction l with
  | nil => intro m h; simp at h
  | cons x xs ih =>
    intro m h
    cases m with
    | zero => simp [listIndex?]
    | succ m =>
      have hx : x ∉ xs := (List.nodup_cons.mp hnd).1
      have hm : m < xs.length := by simpa using h
      have hne : (x == xs[m]) = false := by
        rw [beq_eq_false_iff_ne]
        intro he
        rw [he] at hx
        exact hx (List.getElem_mem hm)
      simp only [listIndex?, List.getElem_cons_succ, hne, Bool.false_eq_true, if_false,
        ite_false]
      rw [ih (List.nodup_cons.mp hnd).2 m hm]
      rfl

/-- With duplicate-free names, the full-roster successor of the member at
position `m` is the member at position `(m + 1) mod n`. -/
theorem roundRobinNext_getElem (gc : GroupChat2) (hnd : gc.agent_names.Nodup)
    (m : Nat) (h : m < gc.agents.length) :
    roundRobinNext gc gc.agents[m]
      = gc.agents.getD ((m + 1) % gc.agents.length) default := by
  unfold roundRobinNext
  have hm' : m < gc.agent_names.length := by
    simpa [GroupChat2.agent_names] using h
  have hname : (gc.agents[m]).name = gc.agent_names[m] := by
    simp [GroupChat2.agent_names]
  rw [hname, listIndex_self gc.agent_names hnd m hm']
  rfl

/-- On the full roster, `next_agent` is the total round-robin successor. -/
theorem next_agent_full (gc : GroupChat2) (a : Agent) (h : 0 < gc.agents.length) :
    gc.next_agent a gc.agents = .ok (some (roundRobinNext gc a)) := by
  unfold GroupChat2.next_agent roundRobinNext
  rw [if_pos rfl, if_neg (by omega)]
  congr 1
  rw [List.getD_eq_getElem?_getD, List.getElem?_eq_getElem (Nat.mod_lt _ h)]
  rfl

/-- Iterating the round-robin successor walks the roster in order with
wrap-around. -/
theorem roundRobinNext_iterate (gc : GroupChat2) (hnd : gc.agent_names.Nodup)
    (hlen : 0 < gc.agents.length) :
    ∀ j i, i < gc.agents.length →
      (roundRobinNext gc)^[j] (gc.agents.getD i default)
        = gc.agents.getD ((i + j) % gc.agents.length) default := by
  intro j
  induction j with
  | zero =>
    intro i hi
    simp [Nat.mod_eq_of_lt hi]
  | succ j ih =>
    intro i hi
    rw [Function.iterate_succ_apply', ih i hi]
    have hm : (i + j) % gc.agents.length < gc.agents.length := Nat.mod_lt _ hlen
    have hgd : gc.agents.getD ((i + j) % gc.agents.length) default
        = gc.agents[(i + j) % gc.agents.length] := by
      rw [List.getD_eq_getElem?_getD, List.getElem?_eq_getElem hm]
      rfl
    rw [hgd, roundRobinNext_getElem gc hnd _ hm]
    congr 1
    rw [Nat.mod_add_mod]
    rfl

/-- C6: for a roster of size at least 2 with duplicate-free names, under the
round_robin policy with repeats allowed (full candidate pool) and no
function-call routing: (1) `select_speaker` from any roster member returns
its round-robin successor with no directive, for every oracle; (2) `j + 1`
applications of the successor starting at position `i` land at position
`(i + 1 + j) mod n`, so `n` successive selections visit the roster in order
with wrap-around; (3) within one full cycle no member is visited twice. -/
theorem c6_round_robin_cycle (gc : GroupChat2)
    (hnd : gc.agent_names.Nodup)
    (h2 : 2 ≤ gc.agents.length)
    (hm : pyLower gc.speaker_selection_method = "round_robin")
    (harep : gc.allow_repeat_speaker = some (Sum.inl true))
    (hfc : funcCallTriggered gc = false) :
    (∀ orc i, (hi : i < gc.agents.length) →
        gc.select_speaker gc.agents[i] orc
          = .ok (some (roundRobinNext gc gc.agents[i]), none))
    ∧ (∀ i j, i < gc.agents.length → j < gc.agents.length →
        (roundRobinNext gc)^[j + 1] (gc.agents.getD i default)
          = gc.agents.getD ((i + 1 + j) % gc.agents.length) default)
    ∧ (∀ i j k, i < gc.agents.length → j < gc.agents.length → k < gc.agents.length →
        (roundRobinNext gc)^[j + 1] (gc.agents.getD i default)
          = (roundRobinNext gc)^[k + 1] (gc.agents.getD i default) → j = k) := by
  have hlen : 0 < gc.agents.length := by omega
  refine ⟨?_, ?_, ?_⟩
  · intro orc i hi
    have hallow : effective_allow_repeat gc gc.agents[i] = .ok true := by
      unfold effective_allow_repeat
      rw [harep]
    have hval : validSpeakerSelectionMethods.contains (pyLower gc.speaker_selection_method)
        = true := by rw [hm]; decide
    rw [select_speaker_eq_dispatch gc _ orc true hval hallow h2 hfc]
    unfold policyDispatch
    rw [hm]
    simp only [String.reduceEq, reduceIte]
    rw [next_agent_full gc _ hlen]
  · intro i j hi hj
    have e : i + (j + 1) = i + 1 + j := by omega
    rw [roundRobinNext_iterate gc hnd hlen (j + 1) i hi, e]
  · intro i j k hi hj hk heq
    rw [roundRobinNext_iterate gc hnd hlen (j + 1) i hi,
        roundRobinNext_iterate gc hnd hlen (k + 1) i hi] at heq
    have hag : gc.agents.Nodup := hnd.of_map _
    have hm1 : (i + (j + 1)) % gc.agents.length < gc.agents.length := Nat.mod_lt _ hlen
    have hm2 : (i + (k + 1)) % gc.agents.length < gc.agents.length := Nat.mod_lt _ hlen
    have hg1 : gc.agents.getD ((i + (j + 1)) % gc.agents.length) default
        = gc.agents.get ⟨(i + (j + 1)) % gc.agents.length, hm1⟩ := by
      rw [List.getD_eq_getElem?_getD, List.getElem?_eq_getElem hm1]
      rfl
    have hg2 : gc.agents.getD ((i + (k + 1)) % gc.agents.length) default
        = gc.agents.get ⟨(i + (k + 1)) % gc.agents.length, hm2⟩ := by
      rw [List.getD_eq_getElem?_getD, List.getElem?_eq_getElem hm2]
      rfl
    rw [hg1, hg2] at heq
    have hfin := (List.Nodup.get_inj_iff hag).mp heq
    have hidx : (i + (j + 1)) % gc.agents.length = (i + (k + 1)) % gc.agents.length := by
      exact congrArg Fin.val hfin
    have e1 : i + (j + 1) = (i + 1) + j := by omega
    have e2 : i + (k + 1) = (i + 1) + k := by omega
    rw [e1, e2] at hidx
    have hcancel : Nat.ModEq gc.agents.length j k :=
      Nat.ModEq.add_left_cancel' (i + 1) hidx
    have hjk : j % gc.agents.length = k % gc.agents.length := hcancel
    rw [Nat.mod_eq_of_lt hj, Nat.mod_eq_of_lt hk] at hjk
    exact hjk

/-- Witness for C6 on the roster [Admin, Coder, Reviewer]: selecting from
Admin yields Coder, and two successor steps from Admin land on Reviewer. -/
theorem c6_round_robin_cycle_witness :
    gcC6.select_speaker agX orcNone = .ok (some agY, none)
    ∧ (roundRobinNext gcC6)^[1 + 1] (gcC6.agents.getD 0 default)
        = gcC6.agents.getD ((0 + 1 + 1) % gcC6.agents.length) default := by
  have h := c6_round_robin_cycle gcC6 (by decide) (by decide) (by decide) rfl rfl
  exact ⟨h.1 orcNone 0 (by decide), h.2.1 0 1 (by decide) (by decide)⟩
